import Mathlib

/-!
# Asset transfer chaincode: a shallow embedding

Embedding of the create and transfer paths of
`chaincode-go/chaincode/asset_mgmt_core.go` (`CreateAsset`, `TransferAsset`,
`transferAssetState`, `setAssetPrivateStateBasedEndorsement`, `getClientOrgID`,
`verifyClientOrgMatchesPeerOrg`, `buildCollectionName`, `getTimestamp`) and of
`TransferAssetMain` of `chaincode-go/chaincode/asset_mgmt.go`.

The chaincode talks to three external collaborators: the JSON codec
(`encoding/json`), the Fabric chaincode stub (`shim`, `statebased`), and the
identity / randomness services.  Their answers are gathered in `Env`; the
private data written through the stub is the explicit state `Stub`.
Every chaincode function is a pure function of the environment and the state
that returns its Go result together with the state it leaves behind.
Go errors are carried as their message strings; `log.Printf` calls have no
effect on the result or the state and are left out.
-/

set_option linter.dupNamespace false

namespace Chaincode

/-! ## Data model -/

/-- Byte slices (`[]byte`) that carry JSON text. -/
abbrev Bytes := String

/-- A `float32` as `encoding/json` can decode it: a finite number with a sign,
a significand and a binary exponent, of value `(-1)^neg * mant * 2^exp`
(JSON has no literal for NaN or the infinities). -/
structure Float32 where
  neg : Bool
  mant : Nat
  exp : Int
deriving DecidableEq, Repr

/-- The Go comparison `q <= 0.0` on a finite `float32`: true for the two zeros
and for every negative number. -/
def Float32.leZero (q : Float32) : Bool :=
  q.mant == 0 || q.neg

/-- The Go struct `Asset` (the field `Type` is spelled `Type_` here). -/
structure Asset where
  Type_ : String
  AssetKey : String
  AssetID : String
  PrevID : String
  Asset : String
  Qty : Float32
  Owner : String
  Active : String
  Version : Int
deriving DecidableEq, Repr

/-- The endorsement policy bytes produced by `statebased`'s `Policy()`: an
n-out-of-n signature policy over the peers of the listed organizations, which
is determined by the sorted list of their MSP identifiers. -/
abbrev PolicyBytes := List String

/-- The answers of the external collaborators during one invocation. -/
structure Env where
  /-- The call `json.Unmarshal(data, &asset)` on a zero `Asset`. -/
  jsonUnmarshal : Bytes → Except String Asset
  /-- The call `json.Marshal(asset)`; on an `Asset` it can fail only for a NaN
  or infinite `Qty`, which `Float32` does not contain. -/
  jsonMarshal : Asset → Bytes
  /-- The call `ctx.GetClientIdentity().GetMSPID()`. -/
  clientMSPID : Except String String
  /-- The call `shim.GetMSPID()`. -/
  peerMSPID : Except String String
  /-- The call `uuid.New().String()`. -/
  uuidNew : String
  /-- The call `rand.Int()`. -/
  randInt : Nat
  /-- The call `ctx.GetStub().GetTransient()`. -/
  getTransient : Except String (String → Option Bytes)
  /-- The error, if any, with which the stub and its peer answer
  `PutPrivateData(collection, key, value)`. -/
  putPrivateDataError : String → String → Bytes → Option String
  /-- The error, if any, with which the stub and its peer answer
  `SetPrivateDataValidationParameter(collection, key, ep)`. -/
  setValidationParameterError : String → String → PolicyBytes → Option String

/-- The private data written through the chaincode stub: per collection and key
the stored value and the key-level validation parameter. -/
structure Stub where
  privateData : String → String → Option Bytes
  validationParameter : String → String → Option PolicyBytes

/-- Go's `len` on a string: its length in bytes. -/
def len (s : String) : Nat := s.utf8ByteSize

/-! ## The chaincode stub -/

/-- The stub's `PutPrivateData`: on acceptance the value replaces whatever was
stored under `key` in `collection`. -/
def PutPrivateData (env : Env) (s : Stub) (collection key : String) (value : Bytes) :
    Except String Unit × Stub :=
  match env.putPrivateDataError collection key value with
  | some err => (.error err, s)
  | none =>
    (.ok (), { s with privateData := fun c k =>
      if c = collection ∧ k = key then some value else s.privateData c k })

/-- The stub's `SetPrivateDataValidationParameter`: on acceptance the policy
replaces whatever validation parameter was attached to `key` in `collection`. -/
def SetPrivateDataValidationParameter (env : Env) (s : Stub) (collection key : String)
    (ep : PolicyBytes) : Except String Unit × Stub :=
  match env.setValidationParameterError collection key ep with
  | some err => (.error err, s)
  | none =>
    (.ok (), { s with validationParameter := fun c k =>
      if c = collection ∧ k = key then some ep else s.validationParameter c k })

/-- The check `validateCompositeKeyAttribute` of the shim: the runes U+0000 and
U+10FFFF are not allowed (a Lean `String` is always valid UTF-8). -/
def validateCompositeKeyAttribute (str : String) : Except String Unit :=
  if str.toList.any (fun c => c.toNat == 0 || c.toNat == 0x10FFFF) then
    .error "input contains unicode U+0000 or U+10FFFF"
  else .ok ()

/-- The fold of the shim's `CreateCompositeKey` over the attributes: each one
is validated, appended, and followed by U+0000. -/
def compositeKeyAttributes (ck : String) : List String → Except String String
  | [] => .ok ck
  | att :: rest =>
    match validateCompositeKeyAttribute att with
    | .error err => .error err
    | .ok _ => compositeKeyAttributes (ck ++ att ++ String.singleton (Char.ofNat 0)) rest

/-- The stub's `CreateCompositeKey`: U+0000, the object type, U+0000, then the
attributes. -/
def CreateCompositeKey (objectType : String) (attributes : List String) :
    Except String String :=
  match validateCompositeKeyAttribute objectType with
  | .error err => .error err
  | .ok _ =>
    compositeKeyAttributes
      (String.singleton (Char.ofNat 0) ++ objectType ++ String.singleton (Char.ofNat 0))
      attributes

/-! ## State-based endorsement (`statebased`) -/

/-- The key set of the map `orgs` of a `statebased` endorsement policy under
construction; every organization is entered with the role `RoleTypePeer`. -/
structure StateEP where
  orgs : List String
deriving DecidableEq, Repr

/-- The call `statebased.NewStateEP(nil)`: the empty policy. -/
def NewStateEP : StateEP := ⟨[]⟩

/-- The call `AddOrgs(statebased.RoleTypePeer, neworgs...)`: each organization
becomes a key of the map. -/
def StateEP.AddOrgs (ep : StateEP) (neworgs : List String) : StateEP :=
  ⟨neworgs.foldl (fun m o => if o ∈ m then m else m ++ [o]) ep.orgs⟩

/-- The call `Policy()`: the policy over the sorted MSP identifiers. -/
def StateEP.Policy (ep : StateEP) : PolicyBytes :=
  ep.orgs.insertionSort (fun a b => a ≤ b)

/-- The call `ListOrgs()`. -/
def StateEP.ListOrgs (ep : StateEP) : List String := ep.orgs

/-! ## asset_mgmt_core.go -/

/-- The function `buildCollectionName`: `fmt.Sprintf("_implicit_org_%s", clientOrgID)`. -/
def buildCollectionName (clientOrgID : String) : String :=
  "_implicit_org_" ++ clientOrgID

/-- The function `getClientOrgID`. -/
def getClientOrgID (env : Env) : Except String String :=
  match env.clientMSPID with
  | .error err => .error ("failed getting client's orgID: " ++ err)
  | .ok clientOrgID => .ok clientOrgID

/-- The function `verifyClientOrgMatchesPeerOrg`. -/
def verifyClientOrgMatchesPeerOrg (env : Env) (clientOrgID : String) : Except String Unit :=
  match env.peerMSPID with
  | .error err => .error ("failed getting peer's orgID: " ++ err)
  | .ok peerOrgID =>
    if clientOrgID ≠ peerOrgID then
      .error ("client from org " ++ clientOrgID ++
        " is not authorized to read or write private data from an org " ++ peerOrgID ++ " peer")
    else .ok ()

/-- The function `getTimestamp`: `strconv.Itoa(rand.Int())`, never an error. -/
def getTimestamp (env : Env) : Except String String :=
  .ok (toString env.randInt)

/-- The function `setAssetPrivateStateBasedEndorsement`.  The calls
`NewStateEP(nil)`, `AddOrgs` with `RoleTypePeer` and `Policy()` cannot fail. -/
def setAssetPrivateStateBasedEndorsement (env : Env) (s : Stub) (collection assetID : String)
    (orgsToEndorse : List String) : Except String Unit × Stub :=
  let endorsementPolicy := NewStateEP.AddOrgs orgsToEndorse
  let policy := endorsementPolicy.Policy
  match SetPrivateDataValidationParameter env s collection assetID policy with
  | (.error err, s1) => (.error ("failed to set validation parameter on asset: " ++ err), s1)
  | (.ok _, s1) => (.ok (), s1)

/-- The method `CreateAsset`.  On failure Go returns the bytes of `"Error"`
next to the error; only the error is kept here. -/
def CreateAsset (env : Env) (s : Stub) (assetJSON : Bytes) : Except String Bytes × Stub :=
  match env.jsonUnmarshal assetJSON with
  | .error err => (.error ("failed to unmarshal JSON: " ++ err), s)
  | .ok assetInput =>
    if len assetInput.Type_ == 0 then
      (.error "objectType field must be a non-empty string", s)
    else if len assetInput.Asset == 0 then
      (.error "asset field must be a non-empty string", s)
    else if assetInput.Qty.leZero then
      (.error "qty field must be a positive integer", s)
    else if len assetInput.Owner == 0 then
      (.error "owner field must be a non-empty string", s)
    else
      match getClientOrgID env with
      | .error err => (.error err, s)
      | .ok clientOrgID =>
        match verifyClientOrgMatchesPeerOrg env clientOrgID with
        | .error err => (.error err, s)
        | .ok _ =>
          let ownerCollection := buildCollectionName clientOrgID
          let uuidAsset := env.uuidNew
          match getTimestamp env with
          | .error err => (.error ("failed to get timestamp: " ++ err), s)
          | .ok timestamp =>
            match CreateCompositeKey assetInput.Type_ [uuidAsset, "-", timestamp] with
            | .error err =>
              (.error ("failed to create composite key for new asset: " ++ err), s)
            | .ok newAssetKey =>
              let asset : Asset :=
                { Type_ := assetInput.Type_
                  AssetKey := newAssetKey
                  AssetID := uuidAsset
                  PrevID := assetInput.PrevID
                  Asset := assetInput.Asset
                  Qty := assetInput.Qty
                  Owner := assetInput.Owner
                  Active := "A"
                  Version := 0 }
              let assetJSONasBytes := env.jsonMarshal asset
              match PutPrivateData env s ownerCollection newAssetKey assetJSONasBytes with
              | (.error err, s1) =>
                (.error ("failed to put asset into private data collecton: " ++ err), s1)
              | (.ok _, s1) =>
                let endorsingOrgs := [clientOrgID]
                match setAssetPrivateStateBasedEndorsement env s1 ownerCollection newAssetKey
                    endorsingOrgs with
                | (.error err, s2) =>
                  (.error ("failed setting state based endorsement for buyer and seller: "
                    ++ err), s2)
                | (.ok _, s2) => (.ok assetJSONasBytes, s2)

/-- The function `transferAssetState`.  The assignment `asset.Owner = buyerOrgID`
through the pointer is the record update; the caller does not read the asset
again.  The parameter `clientOrgID` is not used by the body. -/
def transferAssetState (env : Env) (s : Stub) (asset : Asset) (clientOrgID : String)
    (buyerOrgID : String) : Except String Unit × Stub :=
  let _ := clientOrgID
  let newOwnerCollection := buildCollectionName buyerOrgID
  let asset := { asset with Owner := buyerOrgID }
  let updatedAsset := env.jsonMarshal asset
  match PutPrivateData env s newOwnerCollection asset.AssetKey updatedAsset with
  | (.error err, s1) =>
    (.error ("failed to put asset into private data collecton: " ++ err), s1)
  | (.ok _, s1) =>
    let endorsingOrgs := [buyerOrgID]
    match setAssetPrivateStateBasedEndorsement env s1 newOwnerCollection asset.AssetKey
        endorsingOrgs with
    | (.error err, s2) =>
      (.error ("failed setting state based endorsement for new owner: " ++ err), s2)
    | (.ok _, s2) => (.ok (), s2)

/-- The method `TransferAsset`.  The value returned by `transferAssetState` is
not bound by the Go statement that calls it; the method then returns `nil`. -/
def TransferAsset (env : Env) (s : Stub) (assetTransferJSON : Bytes) (buyerOrg : String) :
    Except String Unit × Stub :=
  match env.jsonUnmarshal assetTransferJSON with
  | .error err => (.error ("failed to unmarshal JSON: " ++ err), s)
  | .ok assetTransferInput =>
    if len buyerOrg == 0 then
      (.error "BuyerOrgID field must be non-empty string", s)
    else
      match getClientOrgID env with
      | .error err => (.error err, s)
      | .ok clientOrgID =>
        let discarded := transferAssetState env s assetTransferInput clientOrgID buyerOrg
        (.ok (), discarded.2)

/-! ## asset_mgmt.go -/

/-- The method `TransferAssetMain`: the buyer is the constant `"Org2MSP"`. -/
def TransferAssetMain (env : Env) (s : Stub) : Except String Unit × Stub :=
  match env.getTransient with
  | .error err => (.error ("Error getting transient: " ++ err), s)
  | .ok transientMap =>
    match transientMap "asset_transfer" with
    | none => (.error "asset to transfer not found in the transient map", s)
    | some transientTransferJSON =>
      let transientBuyerOrg := "Org2MSP"
      match TransferAsset env s transientTransferJSON transientBuyerOrg with
      | (.error err, s1) => (.error ("Error tranfer the asset: " ++ err), s1)
      | (.ok _, s1) => (.ok (), s1)

/-! ## Sample invocations

Concrete environments and inputs at which the statements below are evaluated. -/

/-- The stub of a fresh transaction: nothing written yet. -/
def emptyStub : Stub :=
  { privateData := fun _ _ => none, validationParameter := fun _ _ => none }

/-- A stored asset as its owner `Org1MSP` restates it for a transfer. -/
def heldAsset : Asset :=
  { Type_ := "cbdc", AssetKey := "k1", AssetID := "id1", PrevID := "", Asset := "coin",
    Qty := ⟨false, 5, 0⟩, Owner := "Org1MSP", Active := "A", Version := 0 }

/-- The JSON text of `heldAsset`. -/
def heldJSON : Bytes :=
  "\x7b\"objectType\":\"cbdc\",\"assetKey\":\"k1\",\"assetID\":\"id1\",\"prevAssetID\":\"\",\"asset\":\"coin\",\"qty\":5,\"owner\":\"Org1MSP\",\"active\":\"A\",\"version\":0\x7d"

/-- A create request: the fields a caller supplies, the others at their zero
value. -/
def newAsset (objectType : String) (qty : Nat) (owner : String) : Asset :=
  { Type_ := objectType, AssetKey := "", AssetID := "", PrevID := "", Asset := "coin",
    Qty := ⟨false, qty, 0⟩, Owner := owner, Active := "", Version := 0 }

/-- A create request of `Org1MSP` for itself. -/
def ownJSON : Bytes :=
  "\x7b\"objectType\":\"cbdc\",\"asset\":\"coin\",\"qty\":5,\"owner\":\"Org1MSP\"\x7d"

/-- A create request that names `Org2MSP` as the owner. -/
def otherOwnerJSON : Bytes :=
  "\x7b\"objectType\":\"cbdc\",\"asset\":\"coin\",\"qty\":5,\"owner\":\"Org2MSP\"\x7d"

/-- A create request with the quantity zero. -/
def zeroQtyJSON : Bytes :=
  "\x7b\"objectType\":\"cbdc\",\"asset\":\"coin\",\"qty\":0,\"owner\":\"Org1MSP\"\x7d"

/-- A create request whose object type is the one rune U+0000. -/
def nulTypeJSON : Bytes :=
  "\x7b\"objectType\":\"\\u0000\",\"asset\":\"coin\",\"qty\":5,\"owner\":\"Org1MSP\"\x7d"

/-- The documents the sample decoder knows, each with the record
`json.Unmarshal` decodes it to. -/
def sampleDocs : List (Bytes × Asset) :=
  [ (heldJSON, heldAsset),
    (ownJSON, newAsset "cbdc" 5 "Org1MSP"),
    (otherOwnerJSON, newAsset "cbdc" 5 "Org2MSP"),
    (zeroQtyJSON, newAsset "cbdc" 0 "Org1MSP"),
    (nulTypeJSON, newAsset (String.singleton (Char.ofNat 0)) 5 "Org1MSP") ]

/-- The sample decoder: `json.Unmarshal` restricted to `sampleDocs`. -/
def sampleUnmarshal (data : Bytes) : Except String Asset :=
  match sampleDocs.lookup data with
  | some a => .ok a
  | none => .error "invalid character"

/-- The sample encoder: the fields in the order of the struct, strings written
without escapes and the quantity by its significand. -/
def sampleMarshal (a : Asset) : Bytes :=
  "\x7b\"objectType\":\"" ++ a.Type_ ++ "\",\"assetKey\":\"" ++ a.AssetKey ++
  "\",\"assetID\":\"" ++ a.AssetID ++ "\",\"prevAssetID\":\"" ++ a.PrevID ++
  "\",\"asset\":\"" ++ a.Asset ++ "\",\"qty\":" ++ (if a.Qty.neg then "-" else "") ++
  toString a.Qty.mant ++ ",\"owner\":\"" ++ a.Owner ++ "\",\"active\":\"" ++ a.Active ++
  "\",\"version\":" ++ toString a.Version ++ "\x7d"

/-- An invocation by a client of `clientOrg` on a peer of `peerOrg`, with a
store that accepts every write and every policy. -/
def sampleEnv (clientOrg peerOrg : String) : Env :=
  { jsonUnmarshal := sampleUnmarshal
    jsonMarshal := sampleMarshal
    clientMSPID := .ok clientOrg
    peerMSPID := .ok peerOrg
    uuidNew := "123e4567-e89b-42d3-a456-426614174000"
    randInt := 7
    getTransient := .ok (fun name => if name = "asset_transfer" then some heldJSON else none)
    putPrivateDataError := fun _ _ _ => none
    setValidationParameterError := fun _ _ _ => none }

/-- The sample invocation with a store that rejects every record write. -/
def putRejectingEnv (clientOrg peerOrg : String) : Env :=
  { sampleEnv clientOrg peerOrg with
    putPrivateDataError := fun _ _ _ => some "collection not defined" }

/-- The sample invocation with a store that rejects every policy update. -/
def policyRejectingEnv (clientOrg peerOrg : String) : Env :=
  { sampleEnv clientOrg peerOrg with
    setValidationParameterError := fun _ _ _ => some "metadata not supported" }

/-- The composite key of object type `cbdc` that `sampleEnv` generates. -/
def sampleKey : String :=
  "\x00cbdc\x00123e4567-e89b-42d3-a456-426614174000\x00-\x007\x00"

/-! ## Auxiliary facts -/

theorem len_eq_zero_iff (s : String) : len s = 0 ↔ s = "" := by
  unfold len
  rcases s with ⟨cs⟩
  cases cs with
  | nil => simp [String.utf8ByteSize, String.utf8ByteSize.go]
  | cons c cs =>
    constructor
    · intro h
      have hc := Char.utf8Size_pos c
      simp [String.utf8ByteSize, String.utf8ByteSize.go] at h
      omega
    · intro h
      exact absurd (congrArg String.data h) (by simp)

theorem policy_singleton (org : String) : (NewStateEP.AddOrgs [org]).Policy = [org] := by
  simp [NewStateEP, StateEP.AddOrgs, StateEP.Policy]

theorem buildCollectionName_inj (a b : String)
    (h : buildCollectionName a = buildCollectionName b) : a = b := by
  unfold buildCollectionName at h
  have hd := congrArg String.data h
  simp only [String.data_append, List.append_cancel_left_eq] at hd
  exact String.ext hd

/-- The endorsement setter as a function of the store's answer. -/
theorem setEndorsement_eq (env : Env) (s : Stub) (collection assetID org : String) :
    setAssetPrivateStateBasedEndorsement env s collection assetID [org] =
      match env.setValidationParameterError collection assetID [org] with
      | some err => (.error ("failed to set validation parameter on asset: " ++ err), s)
      | none =>
        (.ok (), { s with validationParameter := fun c k =>
          if c = collection ∧ k = assetID then some [org] else s.validationParameter c k }) := by
  unfold setAssetPrivateStateBasedEndorsement SetPrivateDataValidationParameter
  simp only [policy_singleton]
  cases env.setValidationParameterError collection assetID [org] <;> rfl

/-- What `transferAssetState` leaves in the store, by the store's two answers. -/
theorem transferAssetState_eq (env : Env) (s : Stub) (asset : Asset)
    (clientOrgID buyerOrgID : String) :
    transferAssetState env s asset clientOrgID buyerOrgID =
      match env.putPrivateDataError (buildCollectionName buyerOrgID) asset.AssetKey
          (env.jsonMarshal { asset with Owner := buyerOrgID }) with
      | some err => (.error ("failed to put asset into private data collecton: " ++ err), s)
      | none =>
        match env.setValidationParameterError (buildCollectionName buyerOrgID)
            asset.AssetKey [buyerOrgID] with
        | some err =>
          (.error ("failed setting state based endorsement for new owner: " ++
            ("failed to set validation parameter on asset: " ++ err)),
           { s with privateData := fun c k =>
              if c = buildCollectionName buyerOrgID ∧ k = asset.AssetKey then
                some (env.jsonMarshal { asset with Owner := buyerOrgID })
              else s.privateData c k })
        | none =>
          (.ok (),
           { privateData := fun c k =>
              if c = buildCollectionName buyerOrgID ∧ k = asset.AssetKey then
                some (env.jsonMarshal { asset with Owner := buyerOrgID })
              else s.privateData c k
             validationParameter := fun c k =>
              if c = buildCollectionName buyerOrgID ∧ k = asset.AssetKey then
                some [buyerOrgID]
              else s.validationParameter c k }) := by
  unfold transferAssetState PutPrivateData
  simp only [setEndorsement_eq]
  cases env.putPrivateDataError (buildCollectionName buyerOrgID) asset.AssetKey
      (env.jsonMarshal { asset with Owner := buyerOrgID }) with
  | some err => rfl
  | none =>
    cases env.setValidationParameterError (buildCollectionName buyerOrgID)
        asset.AssetKey [buyerOrgID] <;> rfl

/-! ## The claims -/

/-- C10: `buildCollectionName` is the prefix `_implicit_org_` followed by the
organization identifier, and it is injective: two organizations have the same
private partition exactly when they are the same organization; hence a transfer
to a buyer other than the seller leaves every key of the seller's partition, the
stored value and its validation parameter, as it was. -/
theorem buildCollectionName_prefix_injective :
    (∀ org : String, buildCollectionName org = "_implicit_org_" ++ org) ∧
    Function.Injective buildCollectionName ∧
    (∀ a b : String, a ≠ b → buildCollectionName a ≠ buildCollectionName b) ∧
    (∀ (env : Env) (s : Stub) (input : Bytes) (buyerOrg sellerOrg key : String),
      buyerOrg ≠ sellerOrg →
      (TransferAsset env s input buyerOrg).2.privateData (buildCollectionName sellerOrg) key
        = s.privateData (buildCollectionName sellerOrg) key ∧
      (TransferAsset env s input buyerOrg).2.validationParameter
          (buildCollectionName sellerOrg) key
        = s.validationParameter (buildCollectionName sellerOrg) key) := by
  refine ⟨fun _ => rfl, fun a b h => buildCollectionName_inj a b h,
    fun a b hne h => hne (buildCollectionName_inj a b h), ?_⟩
  intro env s input buyerOrg sellerOrg key hne
  have hcoll : ¬ buildCollectionName sellerOrg = buildCollectionName buyerOrg :=
    fun h => hne (buildCollectionName_inj _ _ h).symm
  unfold TransferAsset
  cases env.jsonUnmarshal input with
  | error err => exact ⟨rfl, rfl⟩
  | ok r =>
    by_cases hb : len buyerOrg = 0
    · simp [hb]
    · cases hc : getClientOrgID env with
      | error err => simp [hb]
      | ok clientOrgID =>
        simp only [hb, beq_iff_eq, if_false, transferAssetState_eq]
        cases env.putPrivateDataError (buildCollectionName buyerOrg) r.AssetKey
            (env.jsonMarshal { r with Owner := buyerOrg }) with
        | some err => exact ⟨rfl, rfl⟩
        | none =>
          cases env.setValidationParameterError (buildCollectionName buyerOrg)
              r.AssetKey [buyerOrg] <;> simp [hcoll]

/-- C10, at a concrete input: `Org1MSP` and `Org2MSP` have different partitions,
and the transfer of `heldAsset` to `Org2MSP` leaves key `k1` of the partition of
`Org1MSP` untouched. -/
theorem buildCollectionName_prefix_injective_witness :
    buildCollectionName "Org1MSP" = "_implicit_org_Org1MSP" ∧
    buildCollectionName "Org1MSP" ≠ buildCollectionName "Org2MSP" ∧
    (TransferAsset (sampleEnv "Org1MSP" "Org1MSP") emptyStub heldJSON "Org2MSP").2.privateData
      (buildCollectionName "Org1MSP") "k1" = none :=
  ⟨buildCollectionName_prefix_injective.1 "Org1MSP",
   buildCollectionName_prefix_injective.2.2.1 "Org1MSP" "Org2MSP" (by decide),
   (buildCollectionName_prefix_injective.2.2.2 (sampleEnv "Org1MSP" "Org1MSP") emptyStub
      heldJSON "Org2MSP" "Org1MSP" "k1" (by decide)).1⟩

/-- C9: `setAssetPrivateStateBasedEndorsement` with the one endorser `org` is
idempotent: a second call right after the first returns the same result and
leaves the store (every stored value and the validation parameter of every key)
exactly as the first call left it.  An accepted call attaches the policy of
exactly `org` to the key whatever was attached before, and touches neither the
stored values nor the validation parameter of any other key. -/
theorem setAssetPrivateStateBasedEndorsement_idempotent (env : Env) (s : Stub)
    (collection key org : String) :
    (setAssetPrivateStateBasedEndorsement env
        (setAssetPrivateStateBasedEndorsement env s collection key [org]).2
        collection key [org]).2
      = (setAssetPrivateStateBasedEndorsement env s collection key [org]).2 ∧
    (setAssetPrivateStateBasedEndorsement env
        (setAssetPrivateStateBasedEndorsement env s collection key [org]).2
        collection key [org]).1
      = (setAssetPrivateStateBasedEndorsement env s collection key [org]).1 ∧
    ((setAssetPrivateStateBasedEndorsement env s collection key [org]).1 = .ok () →
      (setAssetPrivateStateBasedEndorsement env s collection key [org]).2.validationParameter
        collection key = some [org]) ∧
    (setAssetPrivateStateBasedEndorsement env s collection key [org]).2.privateData
      = s.privateData ∧
    (∀ c k, ¬ (c = collection ∧ k = key) →
      (setAssetPrivateStateBasedEndorsement env s collection key [org]).2.validationParameter c k
        = s.validationParameter c k) := by
  cases h : env.setValidationParameterError collection key [org] with
  | some err => simp [setEndorsement_eq, h]
  | none =>
    refine ⟨?_, ?_, ?_, ?_, ?_⟩
    · simp only [setEndorsement_eq, h]
      congr 1
      funext c k
      by_cases hck : c = collection ∧ k = key <;> simp [hck]
    · simp only [setEndorsement_eq, h]
    · intro _
      simp [setEndorsement_eq, h]
    · simp only [setEndorsement_eq, h]
    · intro c k hck
      simp only [setEndorsement_eq, h]
      simp [hck]

/-- C9, at a concrete input: on a key that already carries the policy of
`Org1MSP`, the call with `Org2MSP` is accepted and the key then carries the
policy of exactly `Org2MSP`. -/
theorem setAssetPrivateStateBasedEndorsement_idempotent_witness :
    (setAssetPrivateStateBasedEndorsement (sampleEnv "Org1MSP" "Org1MSP")
        { emptyStub with validationParameter := fun _ _ => some ["Org1MSP"] }
        "_implicit_org_Org2MSP" "k1" ["Org2MSP"]).1 = .ok () ∧
    (setAssetPrivateStateBasedEndorsement (sampleEnv "Org1MSP" "Org1MSP")
        { emptyStub with validationParameter := fun _ _ => some ["Org1MSP"] }
        "_implicit_org_Org2MSP" "k1" ["Org2MSP"]).2.validationParameter
      "_implicit_org_Org2MSP" "k1" = some ["Org2MSP"] :=
  have h : (setAssetPrivateStateBasedEndorsement (sampleEnv "Org1MSP" "Org1MSP")
        { emptyStub with validationParameter := fun _ _ => some ["Org1MSP"] }
        "_implicit_org_Org2MSP" "k1" ["Org2MSP"]).1 = .ok () := by
    simp [setEndorsement_eq, sampleEnv]
  ⟨h, (setAssetPrivateStateBasedEndorsement_idempotent (sampleEnv "Org1MSP" "Org1MSP")
        { emptyStub with validationParameter := fun _ _ => some ["Org1MSP"] }
        "_implicit_org_Org2MSP" "k1" "Org2MSP").2.2.1 h⟩

/-- C3: when the decoded create input has an empty `objectType`, an empty
`asset`, a quantity `<= 0` or an empty `owner`, `CreateAsset` returns one of the
four validation errors and leaves the store as it was (no record written, no
endorsement policy installed), in every invocation context. -/
theorem CreateAsset_rejects_invalid_input (env : Env) (s : Stub) (input : Bytes) (r : Asset)
    (hdec : env.jsonUnmarshal input = .ok r)
    (hbad : r.Type_ = "" ∨ r.Asset = "" ∨ r.Qty.leZero = true ∨ r.Owner = "") :
    (∃ msg, (CreateAsset env s input).1 = .error msg ∧
      msg ∈ ["objectType field must be a non-empty string",
             "asset field must be a non-empty string",
             "qty field must be a positive integer",
             "owner field must be a non-empty string"]) ∧
    (CreateAsset env s input).2 = s := by
  unfold CreateAsset
  simp only [hdec]
  by_cases h1 : len r.Type_ = 0
  · simp [h1]
  · by_cases h2 : len r.Asset = 0
    · simp [h1, h2]
    · by_cases h3 : r.Qty.leZero = true
      · simp [h1, h2, h3]
      · by_cases h4 : len r.Owner = 0
        · simp [h1, h2, h3, h4]
        · exfalso
          rcases hbad with h | h | h | h
          · exact h1 ((len_eq_zero_iff _).2 h)
          · exact h2 ((len_eq_zero_iff _).2 h)
          · exact h3 h
          · exact h4 ((len_eq_zero_iff _).2 h)

/-- C3, at a concrete input: the create request with quantity zero. -/
theorem CreateAsset_rejects_invalid_input_witness :
    (∃ msg, (CreateAsset (sampleEnv "Org1MSP" "Org1MSP") emptyStub zeroQtyJSON).1 = .error msg ∧
      msg ∈ ["objectType field must be a non-empty string",
             "asset field must be a non-empty string",
             "qty field must be a positive integer",
             "owner field must be a non-empty string"]) ∧
    (CreateAsset (sampleEnv "Org1MSP" "Org1MSP") emptyStub zeroQtyJSON).2 = emptyStub :=
  CreateAsset_rejects_invalid_input (sampleEnv "Org1MSP" "Org1MSP") emptyStub zeroQtyJSON
    (newAsset "cbdc" 0 "Org1MSP") rfl (by decide)

/-- C4: when the create input passes the field validation and the
organization of the caller differs from the organization of the executing peer,
`CreateAsset` fails with the authorization error that names both organizations
and leaves the store as it was (no record written, no endorsement policy
installed). -/
theorem CreateAsset_rejects_foreign_peer (env : Env) (s : Stub) (input : Bytes) (r : Asset)
    (clientOrg peerOrg : String)
    (hdec : env.jsonUnmarshal input = .ok r)
    (hType : r.Type_ ≠ "") (hAsset : r.Asset ≠ "") (hQty : r.Qty.leZero = false)
    (hOwner : r.Owner ≠ "")
    (hclient : env.clientMSPID = .ok clientOrg) (hpeer : env.peerMSPID = .ok peerOrg)
    (hne : clientOrg ≠ peerOrg) :
    CreateAsset env s input =
      (.error ("client from org " ++ clientOrg ++
        " is not authorized to read or write private data from an org " ++ peerOrg ++ " peer"),
       s) := by
  have h1 : ¬ len r.Type_ = 0 := fun h => hType ((len_eq_zero_iff _).1 h)
  have h2 : ¬ len r.Asset = 0 := fun h => hAsset ((len_eq_zero_iff _).1 h)
  have h4 : ¬ len r.Owner = 0 := fun h => hOwner ((len_eq_zero_iff _).1 h)
  unfold CreateAsset
  simp [hdec, h1, h2, hQty, h4, getClientOrgID, hclient, verifyClientOrgMatchesPeerOrg, hpeer,
    hne]

/-- C4, at a concrete input: a client of `Org1MSP` on a peer of `Org2MSP`. -/
theorem CreateAsset_rejects_foreign_peer_witness :
    CreateAsset (sampleEnv "Org1MSP" "Org2MSP") emptyStub ownJSON =
      (.error ("client from org " ++ "Org1MSP" ++
        " is not authorized to read or write private data from an org " ++ "Org2MSP" ++ " peer"),
       emptyStub) :=
  CreateAsset_rejects_foreign_peer (sampleEnv "Org1MSP" "Org2MSP") emptyStub ownJSON
    (newAsset "cbdc" 5 "Org1MSP") "Org1MSP" "Org2MSP" rfl (by decide) (by decide)
    (by decide) (by decide) rfl rfl (by decide)

/-- `TransferAsset` past its two checks: it returns success with whatever store
`transferAssetState` leaves. -/
theorem TransferAsset_eq (env : Env) (s : Stub) (input : Bytes) (r : Asset)
    (buyerOrg clientOrg : String)
    (hdec : env.jsonUnmarshal input = .ok r) (hbuyer : buyerOrg ≠ "")
    (hclient : env.clientMSPID = .ok clientOrg) :
    TransferAsset env s input buyerOrg =
      (.ok (), (transferAssetState env s r clientOrg buyerOrg).2) := by
  have hb : ¬ len buyerOrg = 0 := fun h => hbuyer ((len_eq_zero_iff _).1 h)
  unfold TransferAsset
  simp [hdec, hb, getClientOrgID, hclient]

/-- C2: for a valid transfer (the input decodes to a record `r`, `buyerOrg` is
not empty, the caller identity resolves, the store accepts the record write and
the policy update), `TransferAsset` succeeds and afterwards the partition
`buildCollectionName buyerOrg` holds, under the key `r.AssetKey` of the input,
the encoding of `r` with `Owner` set to `buyerOrg`, and the validation parameter
of that key in that partition is the policy of exactly `buyerOrg`. -/
theorem TransferAsset_relocates_to_buyer (env : Env) (s : Stub) (input : Bytes) (r : Asset)
    (buyerOrg clientOrg : String)
    (hdec : env.jsonUnmarshal input = .ok r) (hbuyer : buyerOrg ≠ "")
    (hclient : env.clientMSPID = .ok clientOrg)
    (hput : env.putPrivateDataError (buildCollectionName buyerOrg) r.AssetKey
      (env.jsonMarshal { r with Owner := buyerOrg }) = none)
    (hpolicy : env.setValidationParameterError (buildCollectionName buyerOrg) r.AssetKey
      [buyerOrg] = none) :
    (TransferAsset env s input buyerOrg).1 = .ok () ∧
    (TransferAsset env s input buyerOrg).2.privateData (buildCollectionName buyerOrg) r.AssetKey
      = some (env.jsonMarshal { r with Owner := buyerOrg }) ∧
    ({ r with Owner := buyerOrg } : Asset).Owner = buyerOrg ∧
    (TransferAsset env s input buyerOrg).2.validationParameter
        (buildCollectionName buyerOrg) r.AssetKey
      = some (NewStateEP.AddOrgs [buyerOrg]).Policy ∧
    (NewStateEP.AddOrgs [buyerOrg]).Policy = [buyerOrg] := by
  rw [TransferAsset_eq env s input r buyerOrg clientOrg hdec hbuyer hclient,
    transferAssetState_eq, policy_singleton]
  simp [hput, hpolicy]

/-- C2, at a concrete input: `Org1MSP` transfers `heldAsset` to `Org2MSP`. -/
theorem TransferAsset_relocates_to_buyer_witness :
    (TransferAsset (sampleEnv "Org1MSP" "Org1MSP") emptyStub heldJSON "Org2MSP").1 = .ok () ∧
    (TransferAsset (sampleEnv "Org1MSP" "Org1MSP") emptyStub heldJSON "Org2MSP").2.privateData
        (buildCollectionName "Org2MSP") "k1"
      = some (sampleMarshal { heldAsset with Owner := "Org2MSP" }) ∧
    (TransferAsset (sampleEnv "Org1MSP" "Org1MSP") emptyStub heldJSON
        "Org2MSP").2.validationParameter (buildCollectionName "Org2MSP") "k1"
      = some ["Org2MSP"] :=
  have h := TransferAsset_relocates_to_buyer (sampleEnv "Org1MSP" "Org1MSP") emptyStub heldJSON
    heldAsset "Org2MSP" "Org1MSP" rfl (by decide) rfl rfl rfl
  ⟨h.1, h.2.1, h.2.2.2.2 ▸ h.2.2.2.1⟩

/-- C8: for a transfer input that decodes to `r` and a non-empty `buyerOrg`,
there is one record `w`, equal to `r` in `objectType`, `assetKey`, `assetID`,
`prevAssetID`, `asset`, `qty`, `active` and `version` and with `owner` equal to
`buyerOrg`, such that every stored value that `TransferAsset` changes is the
encoding of `w`, stored under the key `r.AssetKey` of the partition of
`buyerOrg`; and when the caller identity resolves and the store accepts the
write, that encoding is indeed stored there. -/
theorem TransferAsset_changes_only_owner (env : Env) (s : Stub) (input : Bytes) (r : Asset)
    (buyerOrg : String)
    (hdec : env.jsonUnmarshal input = .ok r) (hbuyer : buyerOrg ≠ "") :
    ∃ w : Asset,
      (w.Type_ = r.Type_ ∧ w.AssetKey = r.AssetKey ∧ w.AssetID = r.AssetID ∧
        w.PrevID = r.PrevID ∧ w.Asset = r.Asset ∧ w.Qty = r.Qty ∧ w.Active = r.Active ∧
        w.Version = r.Version ∧ w.Owner = buyerOrg) ∧
      (∀ c k, (TransferAsset env s input buyerOrg).2.privateData c k ≠ s.privateData c k →
        c = buildCollectionName buyerOrg ∧ k = r.AssetKey ∧
        (TransferAsset env s input buyerOrg).2.privateData c k = some (env.jsonMarshal w)) ∧
      (∀ clientOrg, env.clientMSPID = .ok clientOrg →
        env.putPrivateDataError (buildCollectionName buyerOrg) r.AssetKey (env.jsonMarshal w)
          = none →
        (TransferAsset env s input buyerOrg).2.privateData (buildCollectionName buyerOrg)
          r.AssetKey = some (env.jsonMarshal w)) := by
  refine ⟨{ r with Owner := buyerOrg }, ⟨rfl, rfl, rfl, rfl, rfl, rfl, rfl, rfl, rfl⟩, ?_, ?_⟩
  · intro c k hchg
    cases hclient : env.clientMSPID with
    | error err =>
      have hb : ¬ len buyerOrg = 0 := fun h => hbuyer ((len_eq_zero_iff _).1 h)
      exact absurd (by unfold TransferAsset; simp [hdec, hb, getClientOrgID, hclient]) hchg
    | ok clientOrg =>
      rw [TransferAsset_eq env s input r buyerOrg clientOrg hdec hbuyer hclient,
        transferAssetState_eq] at hchg ⊢
      cases hput : env.putPrivateDataError (buildCollectionName buyerOrg) r.AssetKey
          (env.jsonMarshal { r with Owner := buyerOrg }) with
      | some err => simp [hput] at hchg
      | none =>
        cases hpolicy : env.setValidationParameterError (buildCollectionName buyerOrg)
            r.AssetKey [buyerOrg] with
        | some err =>
          simp only [hput, hpolicy] at hchg ⊢
          by_cases hck : c = buildCollectionName buyerOrg ∧ k = r.AssetKey
          · simp [hck]
          · simp [hck] at hchg
        | none =>
          simp only [hput, hpolicy] at hchg ⊢
          by_cases hck : c = buildCollectionName buyerOrg ∧ k = r.AssetKey
          · simp [hck]
          · simp [hck] at hchg
  · intro clientOrg hclient hput
    rw [TransferAsset_eq env s input r buyerOrg clientOrg hdec hbuyer hclient,
      transferAssetState_eq]
    cases hpolicy : env.setValidationParameterError (buildCollectionName buyerOrg)
        r.AssetKey [buyerOrg] <;> simp [hput, hpolicy]

/-- C8, at a concrete input: the transfer of `heldAsset` to `Org2MSP`. -/
theorem TransferAsset_changes_only_owner_witness :
    ∃ w : Asset,
      (w.Type_ = "cbdc" ∧ w.AssetKey = "k1" ∧ w.AssetID = "id1" ∧ w.PrevID = "" ∧
        w.Asset = "coin" ∧ w.Qty = ⟨false, 5, 0⟩ ∧ w.Active = "A" ∧ w.Version = 0 ∧
        w.Owner = "Org2MSP") ∧
      (TransferAsset (sampleEnv "Org1MSP" "Org1MSP") emptyStub heldJSON "Org2MSP").2.privateData
        (buildCollectionName "Org2MSP") "k1" = some (sampleMarshal w) :=
  (TransferAsset_changes_only_owner (sampleEnv "Org1MSP" "Org1MSP") emptyStub heldJSON
    heldAsset "Org2MSP" rfl (by decide)).elim
    (fun w hw => ⟨w, hw.1, hw.2.2 "Org1MSP" rfl rfl⟩)

/-- C5 as stated fails: the create request whose object type is the rune U+0000
has a non-empty type, a non-empty asset, a positive quantity and a non-empty
owner, the caller and the peer are both of `Org1MSP`, and the store accepts
every write and every policy; yet `CreateAsset` returns the composite-key error
and writes nothing. -/
theorem CreateAsset_valid_input_composite_key_error :
    (sampleEnv "Org1MSP" "Org1MSP").jsonUnmarshal nulTypeJSON
      = .ok (newAsset (String.singleton (Char.ofNat 0)) 5 "Org1MSP") ∧
    (newAsset (String.singleton (Char.ofNat 0)) 5 "Org1MSP").Type_ ≠ "" ∧
    (newAsset (String.singleton (Char.ofNat 0)) 5 "Org1MSP").Asset ≠ "" ∧
    (newAsset (String.singleton (Char.ofNat 0)) 5 "Org1MSP").Qty.leZero = false ∧
    (newAsset (String.singleton (Char.ofNat 0)) 5 "Org1MSP").Owner ≠ "" ∧
    (sampleEnv "Org1MSP" "Org1MSP").clientMSPID = .ok "Org1MSP" ∧
    (sampleEnv "Org1MSP" "Org1MSP").peerMSPID = .ok "Org1MSP" ∧
    (∀ c k v, (sampleEnv "Org1MSP" "Org1MSP").putPrivateDataError c k v = none) ∧
    (∀ c k ep, (sampleEnv "Org1MSP" "Org1MSP").setValidationParameterError c k ep = none) ∧
    (CreateAsset (sampleEnv "Org1MSP" "Org1MSP") emptyStub nulTypeJSON).1 =
      .error ("failed to create composite key for new asset: " ++
        "input contains unicode U+0000 or U+10FFFF") ∧
    (∀ c k, (CreateAsset (sampleEnv "Org1MSP" "Org1MSP") emptyStub nulTypeJSON).2.privateData c k
      = none) := by
  refine ⟨rfl, by decide, by decide, by decide, by decide, rfl, rfl, fun _ _ _ => rfl,
    fun _ _ _ => rfl, rfl, fun _ _ => rfl⟩

/-- C5, amended: for a valid create input (non-empty type, non-empty asset,
quantity `> 0`, non-empty owner) with the caller and the executing peer of the
same organization `org`, a composite key `key` that the stub builds from the
type, the fresh token, `-` and the timestamp, and a store that accepts the write
and the policy, `CreateAsset` returns the encoding of the record it persisted:
version `0`, active `A`, the new `key` and token, and type, asset, quantity,
previous identifier and owner copied from the input.  That encoding is stored
under `key` in the partition `buildCollectionName org`, and the validation
parameter of `key` in that partition is the policy of exactly `org`. -/
theorem CreateAsset_persists_record (env : Env) (s : Stub) (input : Bytes) (r : Asset)
    (org key : String)
    (hdec : env.jsonUnmarshal input = .ok r)
    (hType : r.Type_ ≠ "") (hAsset : r.Asset ≠ "") (hQty : r.Qty.leZero = false)
    (hOwner : r.Owner ≠ "")
    (hclient : env.clientMSPID = .ok org) (hpeer : env.peerMSPID = .ok org)
    (hkey : CreateCompositeKey r.Type_ [env.uuidNew, "-", toString env.randInt] = .ok key)
    (hput : env.putPrivateDataError (buildCollectionName org) key
      (env.jsonMarshal
        { Type_ := r.Type_, AssetKey := key, AssetID := env.uuidNew, PrevID := r.PrevID,
          Asset := r.Asset, Qty := r.Qty, Owner := r.Owner, Active := "A", Version := 0 })
      = none)
    (hpolicy : env.setValidationParameterError (buildCollectionName org) key [org] = none) :
    (CreateAsset env s input).1 = .ok (env.jsonMarshal
        { Type_ := r.Type_, AssetKey := key, AssetID := env.uuidNew, PrevID := r.PrevID,
          Asset := r.Asset, Qty := r.Qty, Owner := r.Owner, Active := "A", Version := 0 }) ∧
    (CreateAsset env s input).2.privateData (buildCollectionName org) key
      = some (env.jsonMarshal
        { Type_ := r.Type_, AssetKey := key, AssetID := env.uuidNew, PrevID := r.PrevID,
          Asset := r.Asset, Qty := r.Qty, Owner := r.Owner, Active := "A", Version := 0 }) ∧
    (CreateAsset env s input).2.validationParameter (buildCollectionName org) key
      = some (NewStateEP.AddOrgs [org]).Policy ∧
    (NewStateEP.AddOrgs [org]).Policy = [org] := by
  have h1 : ¬ len r.Type_ = 0 := fun h => hType ((len_eq_zero_iff _).1 h)
  have h2 : ¬ len r.Asset = 0 := fun h => hAsset ((len_eq_zero_iff _).1 h)
  have h4 : ¬ len r.Owner = 0 := fun h => hOwner ((len_eq_zero_iff _).1 h)
  unfold CreateAsset
  simp [hdec, h1, h2, hQty, h4, getClientOrgID, hclient, verifyClientOrgMatchesPeerOrg, hpeer,
    getTimestamp, hkey, PutPrivateData, hput, setEndorsement_eq, hpolicy, policy_singleton]

/-- C5 amended, at a concrete input: `Org1MSP` creates an asset for itself on
its own peer. -/
theorem CreateAsset_persists_record_witness :
    (CreateAsset (sampleEnv "Org1MSP" "Org1MSP") emptyStub ownJSON).1 = .ok (sampleMarshal
        { Type_ := "cbdc", AssetKey := sampleKey,
          AssetID := "123e4567-e89b-42d3-a456-426614174000", PrevID := "", Asset := "coin",
          Qty := ⟨false, 5, 0⟩, Owner := "Org1MSP", Active := "A", Version := 0 }) ∧
    (CreateAsset (sampleEnv "Org1MSP" "Org1MSP") emptyStub ownJSON).2.validationParameter
      (buildCollectionName "Org1MSP") sampleKey = some ["Org1MSP"] :=
  have h := CreateAsset_persists_record (sampleEnv "Org1MSP" "Org1MSP") emptyStub ownJSON
    (newAsset "cbdc" 5 "Org1MSP") "Org1MSP" sampleKey rfl (by decide) (by decide) (by decide)
    (by decide) rfl rfl rfl rfl rfl
  ⟨h.1, h.2.2.2 ▸ h.2.2.1⟩

/-- C1, the code at the failing input: the record names `Org1MSP` as its owner
and the caller is of `Org3MSP`; `TransferAsset` raises no authorization error
but returns success, stores the record with owner `Org2MSP` in the partition of
`Org2MSP` and attaches the policy of `Org2MSP` to its key. -/
theorem TransferAsset_by_non_owner_succeeds :
    (sampleEnv "Org3MSP" "Org3MSP").jsonUnmarshal heldJSON = .ok heldAsset ∧
    heldAsset.Owner = "Org1MSP" ∧
    getClientOrgID (sampleEnv "Org3MSP" "Org3MSP") = .ok "Org3MSP" ∧
    (TransferAsset (sampleEnv "Org3MSP" "Org3MSP") emptyStub heldJSON "Org2MSP").1 = .ok () ∧
    (TransferAsset (sampleEnv "Org3MSP" "Org3MSP") emptyStub heldJSON "Org2MSP").2.privateData
        "_implicit_org_Org2MSP" "k1"
      = some (sampleMarshal { heldAsset with Owner := "Org2MSP" }) ∧
    (TransferAsset (sampleEnv "Org3MSP" "Org3MSP") emptyStub heldJSON
        "Org2MSP").2.validationParameter "_implicit_org_Org2MSP" "k1"
      = some ["Org2MSP"] := by
  refine ⟨rfl, rfl, rfl, rfl, ?_, ?_⟩
  · rw [TransferAsset_eq (sampleEnv "Org3MSP" "Org3MSP") emptyStub heldJSON heldAsset
      "Org2MSP" "Org3MSP" rfl (by decide) rfl, transferAssetState_eq]
    simp [sampleEnv, buildCollectionName, heldAsset]
  · rw [TransferAsset_eq (sampleEnv "Org3MSP" "Org3MSP") emptyStub heldJSON heldAsset
      "Org2MSP" "Org3MSP" rfl (by decide) rfl, transferAssetState_eq]
    simp [sampleEnv, buildCollectionName, heldAsset]

/-- C6, the code at the failing input: a client of `Org1MSP` on its own peer
submits the create request that names `Org2MSP` as the owner; `CreateAsset`
succeeds and stores the record, whose `owner` is `Org2MSP`, in the partition of
`Org1MSP`, which is not `buildCollectionName` of the record's owner; the
partition of `Org2MSP` holds nothing under that key. -/
theorem CreateAsset_partition_differs_from_owner :
    (sampleEnv "Org1MSP" "Org1MSP").jsonUnmarshal otherOwnerJSON
      = .ok (newAsset "cbdc" 5 "Org2MSP") ∧
    (CreateAsset (sampleEnv "Org1MSP" "Org1MSP") emptyStub otherOwnerJSON).1 = .ok (sampleMarshal
        { Type_ := "cbdc", AssetKey := sampleKey,
          AssetID := "123e4567-e89b-42d3-a456-426614174000", PrevID := "", Asset := "coin",
          Qty := ⟨false, 5, 0⟩, Owner := "Org2MSP", Active := "A", Version := 0 }) ∧
    (CreateAsset (sampleEnv "Org1MSP" "Org1MSP") emptyStub otherOwnerJSON).2.privateData
        (buildCollectionName "Org1MSP") sampleKey
      = some (sampleMarshal
        { Type_ := "cbdc", AssetKey := sampleKey,
          AssetID := "123e4567-e89b-42d3-a456-426614174000", PrevID := "", Asset := "coin",
          Qty := ⟨false, 5, 0⟩, Owner := "Org2MSP", Active := "A", Version := 0 }) ∧
    buildCollectionName "Org1MSP" ≠ buildCollectionName "Org2MSP" ∧
    (CreateAsset (sampleEnv "Org1MSP" "Org1MSP") emptyStub otherOwnerJSON).2.privateData
        (buildCollectionName "Org2MSP") sampleKey = none ∧
    (CreateAsset (sampleEnv "Org1MSP" "Org1MSP") emptyStub otherOwnerJSON).2.validationParameter
        (buildCollectionName "Org1MSP") sampleKey = some ["Org1MSP"] := by
  have hne : buildCollectionName "Org1MSP" ≠ buildCollectionName "Org2MSP" := by decide
  have hrun : CreateAsset (sampleEnv "Org1MSP" "Org1MSP") emptyStub otherOwnerJSON =
      (.ok (sampleMarshal
        { Type_ := "cbdc", AssetKey := sampleKey,
          AssetID := "123e4567-e89b-42d3-a456-426614174000", PrevID := "", Asset := "coin",
          Qty := ⟨false, 5, 0⟩, Owner := "Org2MSP", Active := "A", Version := 0 }),
       { privateData := fun c k =>
          if c = buildCollectionName "Org1MSP" ∧ k = sampleKey then
            some (sampleMarshal
              { Type_ := "cbdc", AssetKey := sampleKey,
                AssetID := "123e4567-e89b-42d3-a456-426614174000", PrevID := "",
                Asset := "coin", Qty := ⟨false, 5, 0⟩, Owner := "Org2MSP", Active := "A",
                Version := 0 })
          else none
         validationParameter := fun c k =>
          if c = buildCollectionName "Org1MSP" ∧ k = sampleKey then some ["Org1MSP"]
          else none }) := rfl
  refine ⟨rfl, ?_, ?_, hne, ?_, ?_⟩
  · rw [hrun]
  · rw [hrun]; simp
  · rw [hrun]; simp [hne.symm]
  · rw [hrun]; simp

/-- C7, the code at the failing inputs.  With a store that rejects the record
write, `transferAssetState` returns the storage error, yet `TransferAsset` and
`TransferAssetMain` return success and the store is as it was: nothing was
relocated and no policy was installed.  With a store that rejects the policy
update, `TransferAsset` and `TransferAssetMain` again return success, the record
is in the partition of `Org2MSP` and its key carries no policy. -/
theorem TransferAsset_reports_success_on_store_failure :
    (transferAssetState (putRejectingEnv "Org1MSP" "Org1MSP") emptyStub heldAsset "Org1MSP"
        "Org2MSP").1
      = .error ("failed to put asset into private data collecton: " ++
          "collection not defined") ∧
    TransferAsset (putRejectingEnv "Org1MSP" "Org1MSP") emptyStub heldJSON "Org2MSP"
      = (.ok (), emptyStub) ∧
    TransferAssetMain (putRejectingEnv "Org1MSP" "Org1MSP") emptyStub = (.ok (), emptyStub) ∧
    (transferAssetState (policyRejectingEnv "Org1MSP" "Org1MSP") emptyStub heldAsset "Org1MSP"
        "Org2MSP").1
      = .error ("failed setting state based endorsement for new owner: " ++
          ("failed to set validation parameter on asset: " ++ "metadata not supported")) ∧
    (TransferAsset (policyRejectingEnv "Org1MSP" "Org1MSP") emptyStub heldJSON "Org2MSP").1
      = .ok () ∧
    (TransferAssetMain (policyRejectingEnv "Org1MSP" "Org1MSP") emptyStub).1 = .ok () ∧
    (TransferAssetMain (policyRejectingEnv "Org1MSP" "Org1MSP") emptyStub).2.privateData
        (buildCollectionName "Org2MSP") "k1"
      = some (sampleMarshal { heldAsset with Owner := "Org2MSP" }) ∧
    (TransferAssetMain (policyRejectingEnv "Org1MSP" "Org1MSP") emptyStub).2.validationParameter
        (buildCollectionName "Org2MSP") "k1" = none := by
  have hmain : TransferAssetMain (policyRejectingEnv "Org1MSP" "Org1MSP") emptyStub =
      (.ok (),
       { privateData := fun c k =>
          if c = buildCollectionName "Org2MSP" ∧ k = "k1" then
            some (sampleMarshal { heldAsset with Owner := "Org2MSP" })
          else none
         validationParameter := fun _ _ => none }) := rfl
  refine ⟨rfl, rfl, rfl, rfl, rfl, rfl, ?_, ?_⟩
  · rw [hmain]; simp
  · rw [hmain]

end Chaincode
